/-
Verification of the netCommander protocol client (`src/netcommander/client.py`,
`src/netcommander/const.py`) against its specification.

The Python client is shallowly embedded: pure parsing/addressing code becomes
Lean functions over `String` / `List Char`; the HTTP transport becomes a
function from an abstract HTTP outcome (`HttpResult`) to a result; every
fallible Python function returns `Except NetError α` where `NetError` mirrors
the exception taxonomy of `netcommander_lib/exceptions.py`.  Floating-point
currents are modelled as rationals (`ℚ`); the float-literal parser below covers
the finite decimal/exponent literals Python's `float()` accepts (the device
protocol only ever produces finite decimals such as "2.50").
-/

import Mathlib

namespace NetCommander

/-- Decidable equality for `Except`, so concrete runs can be checked by
`decide`. -/
instance {ε α : Type} [DecidableEq ε] [DecidableEq α] :
    DecidableEq (Except ε α) := fun a b =>
  match a, b with
  | .ok x, .ok y => decidable_of_iff (x = y) (by simp)
  | .error x, .error y => decidable_of_iff (x = y) (by simp)
  | .ok _, .error _ => isFalse (by simp)
  | .error _, .ok _ => isFalse (by simp)

/-! ### Python string primitives on `List Char` -/

/-- Characters stripped by Python's `str.strip()` (ASCII whitespace). -/
def isWsChar (c : Char) : Bool :=
  c = ' ' || c = '\t' || c = '\n' || c = '\r' || c = '\x0b' || c = '\x0c'

/-- Auxiliary for `pySplitList`: accumulates the current field (reversed). -/
def pySplitAux (sep : Char) : List Char → List Char → List (List Char)
  | [], acc => [acc.reverse]
  | c :: cs, acc =>
      if c = sep then acc.reverse :: pySplitAux sep cs []
      else pySplitAux sep cs (c :: acc)

/-- Python `s.split(sep)` for a one-character separator, on char lists.
`"".split(",") = [""]`, like Python. -/
def pySplitList (sep : Char) (l : List Char) : List (List Char) :=
  pySplitAux sep l []

/-- Python `s.split(",")` on strings. -/
def pySplit (s : String) : List String :=
  (pySplitList ',' s.data).map String.mk

/-- Python `a.startswith(b)`: `b.data` is an initial segment of `a.data`. -/
def pyStartsWith (a b : String) : Bool :=
  b.data.isPrefixOf a.data

/-- Python `s.strip()`: drop ASCII whitespace from both ends. -/
def pyStripList (l : List Char) : List Char :=
  (((l.dropWhile isWsChar).reverse.dropWhile isWsChar)).reverse

/-- Python `s.strip()` on strings. -/
def pyStrip (s : String) : String :=
  String.mk (pyStripList s.data)

/-! ### Python `float()` on decimal literals

Model of CPython `float(str)` restricted to finite decimal literals:
optional surrounding whitespace, optional sign, digits with an optional
single `.`, and an optional `e`/`E` exponent.  (The `inf`/`nan` spellings and
digit-group underscores never occur in device responses and are outside the
model.)  Returns `none` exactly when CPython raises `ValueError` on such
input. -/

def isDigitChar (c : Char) : Bool := '0' ≤ c && c ≤ '9'

/-- Numeric value of a digit list, most significant first. -/
def digitsVal : List Char → Nat
  | [] => 0
  | c :: cs => (c.toNat - '0'.toNat) * 10 ^ cs.length + digitsVal cs

/-- Parse an optional exponent suffix `e|E [+|-] digits`; `some e` when the
remaining input is exactly such a suffix (or empty, giving exponent 0). -/
def pyFloatExp : List Char → Option Int
  | [] => some 0
  | c :: rest =>
      if c = 'e' || c = 'E' then
        let (sign, rest2) : Int × List Char :=
          match rest with
          | '+' :: r => (1, r)
          | '-' :: r => (-1, r)
          | r => (1, r)
        let ds := rest2.takeWhile isDigitChar
        let tail := rest2.drop ds.length
        if ds.isEmpty || !tail.isEmpty then none
        else some (sign * (digitsVal ds : Int))
      else none

/-- Mantissa and following input: digits with at most one dot, at least one
digit overall.  Returns the value scaled by `10 ^ fracLen` together with
`fracLen` and the rest of the input. -/
def pyFloatMantissa (l : List Char) : Option (Nat × Nat × List Char) :=
  let ip := l.takeWhile isDigitChar
  let r1 := l.drop ip.length
  match r1 with
  | '.' :: r2 =>
      let fp := r2.takeWhile isDigitChar
      let r3 := r2.drop fp.length
      if ip.isEmpty && fp.isEmpty then none
      else some (digitsVal ip * 10 ^ fp.length + digitsVal fp, fp.length, r3)
  | _ =>
      if ip.isEmpty then none else some (digitsVal ip, 0, r1)

/-- The rational `sign * m * 10 ^ (e - fracLen)` built with `mkRat` so the
kernel can evaluate it. -/
def pyFloatVal (sign : Int) (m : Nat) (fracLen : Nat) (e : Int) : ℚ :=
  let d : Int := e - (fracLen : Int)
  if 0 ≤ d then mkRat (sign * (m : Int) * ((10 ^ d.toNat : Nat) : Int)) 1
  else mkRat (sign * (m : Int)) (10 ^ (-d).toNat)

/-- Python `float(s)` on finite decimal literals, as a rational. -/
def pyFloat? (s : String) : Option ℚ :=
  let l := pyStripList s.data
  let (sign, l2) : Int × List Char :=
    match l with
    | '+' :: r => (1, r)
    | '-' :: r => (-1, r)
    | r => (1, r)
  match pyFloatMantissa l2 with
  | none => none
  | some (m, fracLen, rest) =>
      match pyFloatExp rest with
      | none => none
      | some e => some (pyFloatVal sign m fracLen e)

/-! ### Constants and addressing (`const.py`) -/

def CMD_GET_STATUS : String := "$A5"
def CMD_GET_INFO : String := "$A8"
def CMD_SET_OUTLET : String := "$A3"
def CMD_TOGGLE_OUTLET : String := "rly"
def RESPONSE_SUCCESS : String := "$A0"
def RESPONSE_FAILED : String := "$AF"
def NUM_OUTLETS : Nat := 5

/-- Python `OUTLET_RANGE = range(1, NUM_OUTLETS + 1)` as the list it iterates. -/
def OUTLET_RANGE_LIST : List Int := [1, 2, 3, 4, 5]

/-- Python `outlet_number in OUTLET_RANGE` (integer membership in `range(1,6)`). -/
def inOutletRange (o : Int) : Bool := 1 ≤ o && o ≤ (NUM_OUTLETS : Int)

/-- `const.get_status_position`: `NUM_OUTLETS - outlet_number`. -/
def get_status_position (outlet_number : Int) : Int :=
  (NUM_OUTLETS : Int) - outlet_number

/-- `const.get_rly_index`: `outlet_number - 1`. -/
def get_rly_index (outlet_number : Int) : Int :=
  outlet_number - 1

/-! ### Exception taxonomy (`netcommander_lib/exceptions.py`) -/

/-- The exceptions the client can let escape.  The first six mirror the
classes of `netcommander_lib/exceptions.py` (plus the pydantic validation
error), with the payload each one carries.  `uncaughtAsyncioTimeout` is NOT
one of the repository's exception classes: it represents the
`asyncio.TimeoutError` raised when the configured `ClientTimeout(total=...)`
expires, which matches neither `except` clause of `_send_command` and
therefore propagates to the caller unwrapped. -/
inductive NetError where
  | authenticationError (message : String)
  | connectionError (host : String) (message : String)
  | commandError (command : String) (response : String)
  | invalidOutletError (outlet : Int) (max_outlets : Nat)
  | parseError (response : String) (reason : String)
  | validationError (message : String)
  | uncaughtAsyncioTimeout (message : String)
  deriving Repr, DecidableEq

/-! ### Data models (`netcommander_lib/models.py`) -/

/-- `models.DeviceStatus` (pydantic).  The `outlets` dict is embedded as an
association list in insertion order. -/
structure DeviceStatus where
  outlets : List (Int × Bool)
  total_current_amps : ℚ
  temperature : Option String
  raw_response : String
  deriving Repr, DecidableEq

/-- `models.DeviceInfo` (pydantic). -/
structure DeviceInfo where
  model : String
  hardware_version : Option String
  firmware_version : Option String
  bootloader_version : Option String
  mac_address : Option String
  raw_response : String
  deriving Repr, DecidableEq

/-- Python set equality `set(keys) == set(range(1, 6))` from
`DeviceStatus.validate_outlets`. -/
def outletKeysValid (keys : List Int) : Bool :=
  OUTLET_RANGE_LIST.all (fun k => keys.contains k)
    && keys.all (fun k => OUTLET_RANGE_LIST.contains k)

/-- The pydantic constructor `DeviceStatus(...)`: the `validate_outlets`
validator requires the outlet keys to be exactly `{1..5}`, and the field
constraint `total_current_amps: float = Field(ge=0.0)` rejects negative
currents; violations raise a validation error instead of producing a value. -/
def mkDeviceStatus (outlets : List (Int × Bool)) (current : ℚ)
    (temperature : Option String) (raw : String) : Except NetError DeviceStatus :=
  if outletKeysValid (outlets.map Prod.fst) = false then
    .error (.validationError "Expected outlets 1..5")
  else if current < 0 then
    .error (.validationError "total_current_amps must be >= 0")
  else
    .ok { outlets := outlets, total_current_amps := current,
          temperature := temperature, raw_response := raw }

/-! ### Transport (`client._send_command`) -/

/-- Outcome of the single `session.get` call, abstracting aiohttp: an HTTP
response with status/reason/body, a connector error
(`aiohttp.ClientConnectorError`), another `aiohttp.ClientError`, or the
expiry of the session's `ClientTimeout(total=self.timeout)` — the only
timeout this client configures — which aiohttp surfaces as
`asyncio.TimeoutError`, a class that is NOT an `aiohttp.ClientError`. -/
inductive HttpResult where
  | response (status : Nat) (reason : String) (body : String)
  | connectorError (msg : String)
  | clientError (msg : String)
  | timeoutError (msg : String)
  deriving Repr, DecidableEq

/-- `client._send_command`: maps the HTTP outcome to a trimmed response body
or a typed error, exactly as the status checks in the source.  The
`timeoutError` outcome matches neither `except aiohttp.ClientConnectorError`
nor `except aiohttp.ClientError`, so the `asyncio.TimeoutError` escapes
unwrapped instead of becoming a `ConnectionError`. -/
def send_command (host username command : String) (r : HttpResult) :
    Except NetError String :=
  match r with
  | .response status reason text =>
      if status = 401 then
        .error (.authenticationError
          ("Authentication failed for " ++ username ++ "@" ++ host))
      else if status ≠ 200 then
        .error (.connectionError host ("HTTP " ++ toString status ++ ": " ++ reason))
      else
        let response := pyStrip text
        if pyStartsWith response RESPONSE_FAILED then
          .error (.commandError command response)
        else
          .ok response
  | .connectorError e => .error (.connectionError host ("Connection failed: " ++ e))
  | .clientError e => .error (.connectionError host ("Request error: " ++ e))
  | .timeoutError e => .error (.uncaughtAsyncioTimeout e)

/-! ### Status parsing (`client._parse_status_response`) -/

/-- `client._parse_status_response`: split on commas, check field count, the
`$A0` success sentinel and the outlet-bit width, read each outlet's bit at
`get_status_position`, parse the current with `float()`, keep the optional
fourth field verbatim as temperature, and build the (validated) model. -/
def parse_status_response (response : String) : Except NetError DeviceStatus :=
  let parts := pySplit response
  if parts.length < 3 then
    .error (.parseError response "Expected at least 3 parts")
  else if pyStartsWith (parts.getD 0 "") RESPONSE_SUCCESS = false then
    .error (.parseError response "Expected $A0")
  else
    let outlets_str := parts.getD 1 ""
    if outlets_str.length ≠ NUM_OUTLETS then
      .error (.parseError response "Expected 5 outlet bits")
    else
      let outlets := OUTLET_RANGE_LIST.map (fun n =>
        (n, outlets_str.data.getD (get_status_position n).toNat '\x00' == '1'))
      match pyFloat? (parts.getD 2 "") with
      | none => .error (.parseError response "Invalid current value")
      | some current =>
          let temperature := if 3 < parts.length then some (parts.getD 3 "") else none
          mkDeviceStatus outlets current temperature response

/-! ### Device-info parsing (`client._parse_device_info_response`)

The three `re.search` calls are modelled directly: leftmost-match scanning
with greedy character classes, including the only backtracking the patterns
can perform (the `\s+`/`.+` boundary of the firmware pattern; the other
adjacent classes are disjoint, so greediness there is exact). -/

def isDigitDot (c : Char) : Bool := isDigitChar c || c = '.'

/-- `re.search(r"HW\s*([0-9.]+)", s)` / `re.search(r"BL\s*([0-9.]+)", s)`:
scan for the leftmost position with the two marker characters followed by
optional whitespace and a nonempty maximal run of `[0-9.]`; return group 1. -/
def searchVer (m1 m2 : Char) : List Char → Option (List Char)
  | [] => none
  | a :: rest =>
      match rest with
      | [] => none
      | b :: rest2 =>
          if a = m1 && b = m2 then
            let ds := (rest2.dropWhile isWsChar).takeWhile isDigitDot
            if ds.isEmpty then searchVer m1 m2 rest else some ds
          else searchVer m1 m2 rest

/-- Greedy `.+` run: maximal nonempty prefix of non-newline characters. -/
def dotRun (l : List Char) : List Char := l.takeWhile (fun c => c ≠ '\n')

/-- Matching of `\s+(.+)` given the maximal whitespace run already consumed
(`wsRev`, reversed) and the rest of the input: `.` needs one non-newline
character, backtracking the `\s+` one character at a time (it must keep at
least one). -/
def fwTry : List Char → List Char → Option (List Char)
  | [], _ => none
  | c :: ws, rem =>
      if rem.headD '\n' ≠ '\n' then some (dotRun rem)
      else
        match ws with
        | [] => none
        | _ :: _ => fwTry ws (c :: rem)

/-- `re.search(r"BL[0-9.]+\s+(.+)", s)`: leftmost `BL`, a greedy nonempty
`[0-9.]` run, whitespace, then the firmware text as group 1. -/
def searchFW : List Char → Option (List Char)
  | [] => none
  | 'B' :: 'L' :: rest =>
      let ds := rest.takeWhile isDigitDot
      let r1 := rest.drop ds.length
      let ws := r1.takeWhile isWsChar
      let r2 := r1.drop ws.length
      if ds.isEmpty || ws.isEmpty then searchFW ('L' :: rest)
      else
        match fwTry ws.reverse r2 with
        | some g => some g
        | none => searchFW ('L' :: rest)
  | _ :: rest => searchFW rest

/-- `client._parse_device_info_response`: require the `$A0,` prefix, drop it,
split the remainder on commas; field 0 (stripped) is the model and field 1
(stripped), when present, is the details string the three version regexes
run over. -/
def parse_device_info_response (response : String) : Except NetError DeviceInfo :=
  if pyStartsWith response (RESPONSE_SUCCESS ++ ",") = false then
    .error (.parseError response "Expected $A0")
  else
    let parts := pySplit (String.mk (response.data.drop 4))
    if parts.length < 1 then
      .error (.parseError response "No model information found")
    else
      let model := pyStrip (parts.getD 0 "")
      if 2 ≤ parts.length then
        let details := pyStripList (parts.getD 1 "").data
        .ok { model := model,
              hardware_version := (searchVer 'H' 'W' details).map String.mk,
              firmware_version := (searchFW details).map
                (fun g => String.mk (pyStripList g)),
              bootloader_version := (searchVer 'B' 'L' details).map String.mk,
              mac_address := none,
              raw_response := response }
      else
        .ok { model := model, hardware_version := none, firmware_version := none,
              bootloader_version := none, mac_address := none,
              raw_response := response }

/-! ### Public client operations -/

/-- `client.get_status`: send `$A5` and parse the response. -/
def get_status (host username : String) (r : HttpResult) :
    Except NetError DeviceStatus :=
  (send_command host username CMD_GET_STATUS r).bind parse_status_response

/-- `client.get_outlet_state`: validate the outlet number locally, then read
its entry from a fresh status. -/
def get_outlet_state (host username : String) (outlet_number : Int)
    (r : HttpResult) : Except NetError Bool :=
  if inOutletRange outlet_number = false then
    .error (.invalidOutletError outlet_number NUM_OUTLETS)
  else
    (get_status host username r).map (fun st => ((st.outlets.lookup outlet_number).getD false))

/-- The `$A3` command string of `client.set_outlet`:
`f"{CMD_SET_OUTLET} {outlet_number} {value}"` with `value = 1 if state else 0`. -/
def set_outlet_command (outlet_number : Int) (state : Bool) : String :=
  CMD_SET_OUTLET ++ " " ++ toString outlet_number ++ " "
    ++ (if state then "1" else "0")

/-- `client.set_outlet`: validate, send the space-separated `$A3` command,
and report whether the response starts with `$A0`. -/
def set_outlet (host username : String) (outlet_number : Int) (state : Bool)
    (r : HttpResult) : Except NetError Bool :=
  if inOutletRange outlet_number = false then
    .error (.invalidOutletError outlet_number NUM_OUTLETS)
  else
    (send_command host username (set_outlet_command outlet_number state) r).map
      (fun response => pyStartsWith response RESPONSE_SUCCESS)

/-- `client.turn_on`. -/
def turn_on (host username : String) (outlet_number : Int) (r : HttpResult) :
    Except NetError Bool :=
  set_outlet host username outlet_number true r

/-- `client.turn_off`. -/
def turn_off (host username : String) (outlet_number : Int) (r : HttpResult) :
    Except NetError Bool :=
  set_outlet host username outlet_number false r

/-- `client.toggle_outlet`: validate, then send `rly=<outlet-1>`. -/
def toggle_outlet (host username : String) (outlet_number : Int)
    (r : HttpResult) : Except NetError Bool :=
  if inOutletRange outlet_number = false then
    .error (.invalidOutletError outlet_number NUM_OUTLETS)
  else
    (send_command host username
        (CMD_TOGGLE_OUTLET ++ "=" ++ toString (get_rly_index outlet_number)) r).map
      (fun response => pyStartsWith response RESPONSE_SUCCESS)

/-- `client.turn_on_all`: call `turn_on` for each outlet 1..5 in order; a
raised per-outlet exception is caught and recorded as `false`.  The oracle
gives each outlet's HTTP outcome. -/
def turn_on_all (host username : String) (oracle : Int → HttpResult) :
    List (Int × Bool) :=
  OUTLET_RANGE_LIST.map (fun o =>
    (o, match turn_on host username o (oracle o) with
        | .ok b => b
        | .error _ => false))

/-- `client.turn_off_all`: as `turn_on_all` with `turn_off`. -/
def turn_off_all (host username : String) (oracle : Int → HttpResult) :
    List (Int × Bool) :=
  OUTLET_RANGE_LIST.map (fun o =>
    (o, match turn_off host username o (oracle o) with
        | .ok b => b
        | .error _ => false))

/-- Test double for the batch-operation scenario: outlet 3's request fails at
the connector, every other outlet answers HTTP 200 with a `$A0` body. -/
def failAt3Oracle : Int → HttpResult := fun o =>
  if o = 3 then .connectorError "unreachable" else .response 200 "OK" "$A0"

/-! ### Helper lemmas -/

lemma getD_ne_default {l : List String} {n : Nat} (h : l.getD n "" ≠ "") :
    n < l.length := by
  by_contra hn
  push_neg at hn
  rw [List.getD_eq_default _ _ hn] at h
  exact h rfl

/-- The outlet map built by the status parser has exactly the keys 1..5. -/
lemma outlet_map_keys (f : Int → Bool) :
    (OUTLET_RANGE_LIST.map (fun n => (n, f n))).map Prod.fst = OUTLET_RANGE_LIST := by
  simp [OUTLET_RANGE_LIST]

lemma outletKeysValid_map (f : Int → Bool) :
    outletKeysValid ((OUTLET_RANGE_LIST.map (fun n => (n, f n))).map Prod.fst)
      = true := by
  rw [outlet_map_keys]; decide

/-- Inversion for the pydantic constructor: a produced `DeviceStatus` is the
given record, with a nonnegative current and valid outlet keys. -/
lemma mkDeviceStatus_ok {outlets : List (Int × Bool)} {current : ℚ}
    {temperature : Option String} {raw : String} {ds : DeviceStatus}
    (h : mkDeviceStatus outlets current temperature raw = .ok ds) :
    ds = ⟨outlets, current, temperature, raw⟩ ∧ 0 ≤ current
      ∧ outletKeysValid (outlets.map Prod.fst) = true := by
  unfold mkDeviceStatus at h
  split_ifs at h with hk hc
  cases h
  exact ⟨rfl, not_lt.mp hc, by simpa using hk⟩

/-- Inversion for successful status parses: every field of the returned
`DeviceStatus` in terms of the comma-split response. -/
lemma parse_status_ok {response : String} {ds : DeviceStatus}
    (h : parse_status_response response = .ok ds) :
    ds.outlets = OUTLET_RANGE_LIST.map (fun n =>
        (n, ((pySplit response).getD 1 "").data.getD
              (get_status_position n).toNat '\x00' == '1'))
      ∧ 0 ≤ ds.total_current_amps
      ∧ pyFloat? ((pySplit response).getD 2 "") = some ds.total_current_amps
      ∧ ds.temperature = (if 3 < (pySplit response).length
          then some ((pySplit response).getD 3 "") else none)
      ∧ ds.raw_response = response := by
  unfold parse_status_response at h
  dsimp only at h
  by_cases h1 : (pySplit response).length < 3
  · rw [if_pos h1] at h; cases h
  rw [if_neg h1] at h
  by_cases h2 : pyStartsWith ((pySplit response).getD 0 "") RESPONSE_SUCCESS = false
  · rw [if_pos h2] at h; cases h
  rw [if_neg h2] at h
  by_cases h3 : ((pySplit response).getD 1 "").length ≠ NUM_OUTLETS
  · rw [if_pos h3] at h; cases h
  rw [if_neg h3] at h
  cases hf : pyFloat? ((pySplit response).getD 2 "") with
  | none => rw [hf] at h; cases h
  | some c =>
      rw [hf] at h
      obtain ⟨hds, hc, -⟩ := mkDeviceStatus_ok h
      subst hds
      exact ⟨rfl, hc, rfl, rfl, rfl⟩

/-- Forward direction: when the three checked fields are good and the current
is nonnegative, the parse succeeds and each model field is determined. -/
lemma parse_status_succeeds {response : String} {c : ℚ}
    (h0 : pyStartsWith ((pySplit response).getD 0 "") RESPONSE_SUCCESS = true)
    (h1 : ((pySplit response).getD 1 "").length = NUM_OUTLETS)
    (hf : pyFloat? ((pySplit response).getD 2 "") = some c)
    (hc : 0 ≤ c) :
    parse_status_response response = .ok
      { outlets := OUTLET_RANGE_LIST.map (fun n =>
          (n, ((pySplit response).getD 1 "").data.getD
                (get_status_position n).toNat '\x00' == '1')),
        total_current_amps := c,
        temperature := if 3 < (pySplit response).length
          then some ((pySplit response).getD 3 "") else none,
        raw_response := response } := by
  have hempty : pyFloat? "" = none := by decide
  have hlen : 2 < (pySplit response).length := by
    apply getD_ne_default
    intro he
    rw [he, hempty] at hf
    cases hf
  have c1 : ¬((pySplit response).length < 3) := by omega
  have c2 : ¬(pyStartsWith ((pySplit response).getD 0 "") RESPONSE_SUCCESS
      = false) := by simp only [h0]; decide
  have c3 : ¬(((pySplit response).getD 1 "").length ≠ NUM_OUTLETS) := by
    simp only [h1]; decide
  have c4 : ¬(outletKeysValid ((OUTLET_RANGE_LIST.map (fun n => ((n : Int),
      ((pySplit response).getD 1 "").data.getD
        (get_status_position n).toNat '\x00' == '1'))).map Prod.fst) = false) := by
    simp only [outletKeysValid_map]; decide
  unfold parse_status_response mkDeviceStatus
  dsimp only
  rw [if_neg c1, if_neg c2, if_neg c3, hf]
  dsimp only
  rw [if_neg c4, if_neg (not_lt.mpr hc)]


/-! ### Claim theorems -/

/-- C1: for the 5-outlet device, parsing the raw status response
"$A0,10101,2.50,25" yields outlets 1,3,5 on and 2,4 off, a total current of
2.5 A (`mkRat 5 2`) and temperature "25"; and parsing "$A0,00000,0.00,XX"
yields all five outlets off, a current of 0.0 and the literal temperature
string "XX", not coerced to a number or to zero. -/
theorem claim_C1_parse_scenarios :
    parse_status_response "$A0,10101,2.50,25" = .ok
        { outlets := [(1, true), (2, false), (3, true), (4, false), (5, true)],
          total_current_amps := mkRat 5 2, temperature := some "25",
          raw_response := "$A0,10101,2.50,25" }
    ∧ parse_status_response "$A0,00000,0.00,XX" = .ok
        { outlets := [(1, false), (2, false), (3, false), (4, false), (5, false)],
          total_current_amps := 0, temperature := some "XX",
          raw_response := "$A0,00000,0.00,XX" } := by decide

/-- C4: for every outlet number `o` with `1 <= o <= NUM_OUTLETS`,
`get_status_position o = NUM_OUTLETS - o` and `get_rly_index o = o - 1`
(so toggling outlet 1 addresses relay index 0), and whenever a status parse
succeeds, a '1' character at position `get_status_position o` of the bit
field makes outlet `o` report true. -/
theorem claim_C4_addressing (o : Int) (h1 : 1 ≤ o) (h2 : o ≤ (NUM_OUTLETS : Int)) :
    get_status_position o = (NUM_OUTLETS : Int) - o
    ∧ get_rly_index o = o - 1
    ∧ ∀ response ds, parse_status_response response = .ok ds →
        ((pySplit response).getD 1 "").data.getD
            (get_status_position o).toNat '\x00' = '1' →
        ds.outlets.lookup o = some true := by
  have h2' : o ≤ 5 := by simpa [NUM_OUTLETS] using h2
  refine ⟨rfl, rfl, ?_⟩
  intro response ds hds hbit
  obtain ⟨ho, -, -, -, -⟩ := parse_status_ok hds
  rw [ho]
  interval_cases o <;> simp_all [OUTLET_RANGE_LIST, List.lookup]

/-- C9: every `DeviceStatus` produced by the status parser (and hence by
`get_status`) has outlet keys exactly 1..5 in order, and a nonnegative
`total_current_amps`; a key mismatch or negative current is rejected during
construction, never returned as a partial result. -/
theorem claim_C9_invariants (response host username : String) (r : HttpResult)
    (ds ds2 : DeviceStatus) (h : parse_status_response response = .ok ds) :
    (ds.outlets.map Prod.fst = OUTLET_RANGE_LIST ∧ 0 ≤ ds.total_current_amps)
    ∧ (get_status host username r = .ok ds2 →
        ds2.outlets.map Prod.fst = OUTLET_RANGE_LIST ∧ 0 ≤ ds2.total_current_amps) := by
  constructor
  · obtain ⟨ho, hc, -, -, -⟩ := parse_status_ok h
    exact ⟨by rw [ho, outlet_map_keys], hc⟩
  · intro h2
    unfold get_status at h2
    cases hs : send_command host username CMD_GET_STATUS r with
    | error e => rw [hs] at h2; cases h2
    | ok s =>
        rw [hs] at h2
        obtain ⟨ho, hc, -, -, -⟩ := parse_status_ok h2
        exact ⟨by rw [ho, outlet_map_keys], hc⟩

theorem claim_C9_witness :
    (DeviceStatus.mk [(1, true), (2, false), (3, true), (4, false), (5, true)]
        (mkRat 5 2) (some "25") "$A0,10101,2.50,25").outlets.map Prod.fst
        = OUTLET_RANGE_LIST
    ∧ (0 : ℚ) ≤ (DeviceStatus.mk
        [(1, true), (2, false), (3, true), (4, false), (5, true)]
        (mkRat 5 2) (some "25") "$A0,10101,2.50,25").total_current_amps :=
  (claim_C9_invariants "$A0,10101,2.50,25" "h" "u" (.response 200 "OK" "")
    (DeviceStatus.mk [(1, true), (2, false), (3, true), (4, false), (5, true)]
      (mkRat 5 2) (some "25") "$A0,10101,2.50,25")
    (DeviceStatus.mk [] 0 none "") (by decide)).1

/-- C10 counterexample: "$A0,10101,-2.5,25,junk" has a valid success field,
a 5-character bit field and a numeric current, yet parsing does not succeed:
the negative current fails the model's `ge=0` validation, contradicting the
claim that any such response parses successfully. -/
theorem claim_C10_counterexample :
    pyStartsWith ((pySplit "$A0,10101,-2.5,25,junk").getD 0 "") RESPONSE_SUCCESS = true
    ∧ ((pySplit "$A0,10101,-2.5,25,junk").getD 1 "").length = NUM_OUTLETS
    ∧ (pyFloat? ((pySplit "$A0,10101,-2.5,25,junk").getD 2 "")).isSome = true
    ∧ parse_status_response "$A0,10101,-2.5,25,junk"
        = .error (.validationError "total_current_amps must be >= 0") := by decide

/-- C10 amended: for every response whose first field starts with "$A0",
whose second field has exactly `NUM_OUTLETS` characters, and whose third
field is numeric with a NONNEGATIVE value, parsing succeeds regardless of
how many extra trailing comma-separated fields follow, and temperature is
taken verbatim from the fourth field exactly when one is present. -/
theorem claim_C10_amended (response : String) (c : ℚ)
    (h0 : pyStartsWith ((pySplit response).getD 0 "") RESPONSE_SUCCESS = true)
    (h1 : ((pySplit response).getD 1 "").length = NUM_OUTLETS)
    (hf : pyFloat? ((pySplit response).getD 2 "") = some c)
    (hc : 0 ≤ c) :
    ∃ ds, parse_status_response response = .ok ds
      ∧ ds.temperature = (if 3 < (pySplit response).length
          then some ((pySplit response).getD 3 "") else none) :=
  ⟨_, parse_status_succeeds h0 h1 hf hc, rfl⟩

theorem claim_C10_witness :
    ∃ ds, parse_status_response "$A0,10101,2.50,25,junk" = .ok ds
      ∧ ds.temperature = some "25" := by
  obtain ⟨ds, hok, ht⟩ := claim_C10_amended "$A0,10101,2.50,25,junk" (mkRat 5 2)
    (by decide) (by decide) (by decide) (by decide)
  exact ⟨ds, hok, by rw [ht]; decide⟩

theorem claim_C4_witness :
    (DeviceStatus.mk [(1, true), (2, false), (3, true), (4, false), (5, true)]
        (mkRat 5 2) (some "25") "$A0,10101,2.50,25").outlets.lookup 3
      = some true :=
  (claim_C4_addressing 3 (by decide) (by decide)).2.2 "$A0,10101,2.50,25" _
    (by decide) (by decide)

/-- Negative-current runs of the status parser end in the pydantic
validation error. -/
lemma parse_status_neg_current {response : String} {c : ℚ}
    (h0 : pyStartsWith ((pySplit response).getD 0 "") RESPONSE_SUCCESS = true)
    (h1 : ((pySplit response).getD 1 "").length = NUM_OUTLETS)
    (hf : pyFloat? ((pySplit response).getD 2 "") = some c)
    (hc : c < 0) :
    parse_status_response response
      = .error (.validationError "total_current_amps must be >= 0") := by
  have hempty : pyFloat? "" = none := by decide
  have hlen : 2 < (pySplit response).length := by
    apply getD_ne_default
    intro he
    rw [he, hempty] at hf
    cases hf
  have c1 : ¬((pySplit response).length < 3) := by omega
  have c2 : ¬(pyStartsWith ((pySplit response).getD 0 "") RESPONSE_SUCCESS
      = false) := by simp only [h0]; decide
  have c3 : ¬(((pySplit response).getD 1 "").length ≠ NUM_OUTLETS) := by
    simp only [h1]; decide
  have c4 : ¬(outletKeysValid ((OUTLET_RANGE_LIST.map (fun n => ((n : Int),
      ((pySplit response).getD 1 "").data.getD
        (get_status_position n).toNat '\x00' == '1'))).map Prod.fst) = false) := by
    simp only [outletKeysValid_map]; decide
  unfold parse_status_response mkDeviceStatus
  dsimp only
  rw [if_neg c1, if_neg c2, if_neg c3, hf]
  dsimp only
  rw [if_neg c4, if_pos hc]

/-- The pydantic constructor never raises `ParseError`. -/
lemma mkDeviceStatus_no_parseError {outlets : List (Int × Bool)} {current : ℚ}
    {temperature : Option String} {raw resp reason : String} :
    mkDeviceStatus outlets current temperature raw
      ≠ .error (.parseError resp reason) := by
  unfold mkDeviceStatus
  split_ifs <;> simp

/-- The exact set of inputs on which the status parser raises `ParseError`. -/
lemma parse_status_parseError_iff (response : String) :
    (∃ reason, parse_status_response response = .error (.parseError response reason))
      ↔ ((pySplit response).length < 3
        ∨ pyStartsWith ((pySplit response).getD 0 "") RESPONSE_SUCCESS = false
        ∨ ((pySplit response).getD 1 "").length ≠ NUM_OUTLETS
        ∨ pyFloat? ((pySplit response).getD 2 "") = none) := by
  unfold parse_status_response
  dsimp only
  by_cases h1 : (pySplit response).length < 3
  · rw [if_pos h1]
    exact iff_of_true ⟨_, rfl⟩ (Or.inl h1)
  rw [if_neg h1]
  by_cases h2 : pyStartsWith ((pySplit response).getD 0 "") RESPONSE_SUCCESS = false
  · rw [if_pos h2]
    exact iff_of_true ⟨_, rfl⟩ (Or.inr (Or.inl h2))
  rw [if_neg h2]
  by_cases h3 : ((pySplit response).getD 1 "").length ≠ NUM_OUTLETS
  · rw [if_pos h3]
    exact iff_of_true ⟨_, rfl⟩ (Or.inr (Or.inr (Or.inl h3)))
  rw [if_neg h3]
  cases hf : pyFloat? ((pySplit response).getD 2 "") with
  | none => exact iff_of_true ⟨_, rfl⟩ (Or.inr (Or.inr (Or.inr rfl)))
  | some c =>
      apply iff_of_false
      · rintro ⟨reason, hr⟩
        exact mkDeviceStatus_no_parseError hr
      · rintro (h | h | h | h)
        · exact h1 h
        · exact h2 h
        · exact h3 h
        · cases h

/-- C2 counterexample: the response "$A0X,10101,2.50,25" has field 0 equal
to "$A0X", which does not EQUAL the sentinel "$A0", yet the parser accepts
it (the code only checks `startswith`); and "$A0,10101,-1.0,25" falls in
none of the claim's four ParseError cases yet does not return a
DeviceStatus: the negative current raises a validation error. -/
theorem claim_C2_counterexample :
    (pySplit "$A0X,10101,2.50,25").getD 0 "" ≠ RESPONSE_SUCCESS
    ∧ parse_status_response "$A0X,10101,2.50,25" = .ok
        (DeviceStatus.mk [(1, true), (2, false), (3, true), (4, false), (5, true)]
          (mkRat 5 2) (some "25") "$A0X,10101,2.50,25")
    ∧ parse_status_response "$A0,10101,-1.0,25"
        = .error (.validationError "total_current_amps must be >= 0") := by decide

/-- C2 amended: the status parser raises ParseError exactly when the
response has fewer than 3 comma-separated fields, field 0 does not START
WITH "$A0", the outlet-bits field length differs from `NUM_OUTLETS`, or the
current field is not numeric; in all other cases it returns a DeviceStatus
when the parsed current is nonnegative, and raises the model's validation
error when it is negative. -/
theorem claim_C2_amended (response : String) :
    ((∃ reason, parse_status_response response = .error (.parseError response reason))
      ↔ ((pySplit response).length < 3
        ∨ pyStartsWith ((pySplit response).getD 0 "") RESPONSE_SUCCESS = false
        ∨ ((pySplit response).getD 1 "").length ≠ NUM_OUTLETS
        ∨ pyFloat? ((pySplit response).getD 2 "") = none))
    ∧ (∀ c, pyFloat? ((pySplit response).getD 2 "") = some c →
        pyStartsWith ((pySplit response).getD 0 "") RESPONSE_SUCCESS = true →
        ((pySplit response).getD 1 "").length = NUM_OUTLETS →
        ((0 ≤ c → ∃ ds, parse_status_response response = .ok ds)
          ∧ (c < 0 → parse_status_response response
              = .error (.validationError "total_current_amps must be >= 0")))) := by
  refine ⟨parse_status_parseError_iff response, ?_⟩
  intro c hf h0 h1
  exact ⟨fun hc => ⟨_, parse_status_succeeds h0 h1 hf hc⟩,
         fun hc => parse_status_neg_current h0 h1 hf hc⟩

theorem claim_C2_witness :
    (∃ reason, parse_status_response "$A0,10101"
        = .error (.parseError "$A0,10101" reason))
    ∧ (∃ ds, parse_status_response "$A0,10101,2.50,25" = .ok ds) :=
  ⟨(claim_C2_amended "$A0,10101").1.mpr (by decide),
   ((claim_C2_amended "$A0,10101,2.50,25").2 (mkRat 5 2) (by decide) (by decide)
      (by decide)).1 (by decide)⟩

/-- Recognizers for the error kinds of C3. -/
def isAuthError : Except NetError String → Bool
  | .error (.authenticationError _) => true
  | _ => false

def isConnError : Except NetError String → Bool
  | .error (.connectionError _ _) => true
  | _ => false

/-- C3 (code bug, timeout path): the claim and the spec say a request
timeout makes `sendRaw` raise ConnectionError, and the other transport
mappings do behave as claimed — an HTTP 401 raises AuthenticationError, a
connector failure or another non-200 status raises ConnectionError, and a
`$AF` body on a 200 raises CommandError carrying the command and the
trimmed response.  But the one timeout this client configures
(`ClientTimeout(total=...)`) surfaces as `asyncio.TimeoutError`, which
matches neither `except` clause of `_send_command`: it escapes unwrapped,
and in particular is not a ConnectionError. -/
theorem claim_C3_timeout_code_bug :
    isAuthError (send_command "h" "u" "$A5" (.response 401 "Unauthorized" "")) = true
    ∧ isConnError (send_command "h" "u" "$A5"
        (.connectorError "Cannot connect to host")) = true
    ∧ isConnError (send_command "h" "u" "$A5"
        (.clientError "Bad request error")) = true
    ∧ isConnError (send_command "h" "u" "$A5" (.response 500 "Server Error" "")) = true
    ∧ send_command "h" "u" "$A5" (.response 200 "OK" " $AF oops ")
        = .error (.commandError "$A5" "$AF oops")
    ∧ send_command "h" "u" "$A5" (.timeoutError "Request timed out after 10 seconds")
        = .error (.uncaughtAsyncioTimeout "Request timed out after 10 seconds")
    ∧ isConnError (send_command "h" "u" "$A5"
        (.timeoutError "Request timed out after 10 seconds")) = false := by decide

/-- C5: `set_outlet` builds its command as the "$A3" token, the 1-based
outlet number and the 1/0 value joined by single spaces, the command never
contains a comma, and for an HTTP 200 reply that is not a "$AF" failure it
returns true if and only if the device response starts with "$A0". -/
theorem claim_C5_set_outlet (o : Int) (state : Bool)
    (h1 : 1 ≤ o) (h2 : o ≤ (NUM_OUTLETS : Int)) :
    set_outlet_command o state
      = CMD_SET_OUTLET ++ " " ++ toString o ++ " " ++ (if state then "1" else "0")
    ∧ ',' ∉ (set_outlet_command o state).data
    ∧ ∀ host username reason body,
        pyStartsWith (pyStrip body) RESPONSE_FAILED = false →
        set_outlet host username o state (.response 200 reason body)
          = .ok (pyStartsWith (pyStrip body) RESPONSE_SUCCESS) := by
  have h2' : o ≤ 5 := by simpa [NUM_OUTLETS] using h2
  have hr : ¬(inOutletRange o = false) := by
    unfold inOutletRange
    simp [NUM_OUTLETS, h1, h2']
  refine ⟨rfl, ?_, ?_⟩
  · interval_cases o <;> cases state <;> decide
  · intro host username reason body hb
    unfold set_outlet send_command
    dsimp only
    rw [if_neg hr, if_neg (by decide), if_neg (by decide), if_neg (by simp [hb])]
    rfl

theorem claim_C5_witness :
    set_outlet_command 1 true = "$A3 1 1"
    ∧ set_outlet "h" "u" 1 true (.response 200 "OK" "$A0") = .ok true := by
  refine ⟨(claim_C5_set_outlet 1 true (by decide) (by decide)).1.trans (by decide), ?_⟩
  have h := (claim_C5_set_outlet 1 true (by decide) (by decide)).2.2 "h" "u" "OK" "$A0"
    (by decide)
  rw [h]
  decide

/-- A Python `split` always yields at least one field. -/
lemma pySplitAux_length_pos (sep : Char) (l acc : List Char) :
    0 < (pySplitAux sep l acc).length := by
  induction l generalizing acc with
  | nil => simp [pySplitAux]
  | cons c cs ih =>
      by_cases h : c = sep
      · simp [pySplitAux, h]
      · simpa [pySplitAux, h] using ih (c :: acc)

lemma pySplit_length_pos (s : String) : 0 < (pySplit s).length := by
  simpa [pySplit] using pySplitAux_length_pos ',' s.data []

/-- Following the SPEC's words rather than the source ("split the remaining
text on the first comma into a trimmed model and an optional details
string"): the details are everything after the first comma of the
prefix-stripped text.  Defined only to compare the claim's reading with the
code's `split(",")[1]`. -/
def specFirstCommaDetails (response : String) : Option String :=
  let data := response.data.drop 4
  if data.contains ',' then
    some (String.mk ((data.dropWhile (fun c => c ≠ ',')).drop 1))
  else none

/-- C6 counterexample: for "$A0,M, HW1.2, BL3.4 f", splitting the remaining
text on the FIRST comma (the claim's wording, `specFirstCommaDetails`) gives
details " HW1.2, BL3.4 f", in which the BL marker is present with version
"3.4"; but the code takes only the second comma-separated field ("HW1.2") as
details and returns `bootloader_version = none`. -/
theorem claim_C6_counterexample :
    specFirstCommaDetails "$A0,M, HW1.2, BL3.4 f" = some " HW1.2, BL3.4 f"
    ∧ (searchVer 'B' 'L' (pyStripList " HW1.2, BL3.4 f".data)).map String.mk
        = some "3.4"
    ∧ parse_device_info_response "$A0,M, HW1.2, BL3.4 f"
        = .ok (DeviceInfo.mk "M" (some "1.2") none none none
            "$A0,M, HW1.2, BL3.4 f") := by decide

/-- C6 amended: the device-info parser raises ParseError when the response
does not start with "$A0,"; otherwise it strips that prefix and splits the
remaining text on commas, the first field (trimmed) being the model and the
second field, when present, the details string (later fields are ignored);
from details "HW4.3 BL1.6 -7.72-8.5" it extracts hardware "4.3", bootloader
"1.6" and firmware "-7.72-8.5"; with no details segment only the model is
populated, and each version field is independently absent when its marker is
not found. -/
theorem claim_C6_amended (response : String) :
    (pyStartsWith response (RESPONSE_SUCCESS ++ ",") = false →
      parse_device_info_response response
        = .error (.parseError response "Expected $A0"))
    ∧ (∀ info, parse_device_info_response response = .ok info →
        info.model = pyStrip ((pySplit (String.mk (response.data.drop 4))).getD 0 ""))
    ∧ (pyStartsWith response (RESPONSE_SUCCESS ++ ",") = true →
        (pySplit (String.mk (response.data.drop 4))).length < 2 →
        parse_device_info_response response = .ok
          (DeviceInfo.mk
            (pyStrip ((pySplit (String.mk (response.data.drop 4))).getD 0 ""))
            none none none none response))
    ∧ parse_device_info_response "$A0,NP0501DU, HW4.3 BL1.6 -7.72-8.5"
        = .ok (DeviceInfo.mk "NP0501DU" (some "4.3") (some "-7.72-8.5")
            (some "1.6") none "$A0,NP0501DU, HW4.3 BL1.6 -7.72-8.5")
    ∧ parse_device_info_response "$A0,M, BL1.6 -7"
        = .ok (DeviceInfo.mk "M" none (some "-7") (some "1.6") none
            "$A0,M, BL1.6 -7")
    ∧ parse_device_info_response "$A0,M, HW4.3"
        = .ok (DeviceInfo.mk "M" (some "4.3") none none none "$A0,M, HW4.3") := by
  refine ⟨?_, ?_, ?_, by decide, by decide, by decide⟩
  · intro h
    unfold parse_device_info_response
    rw [if_pos h]
  · intro info h
    unfold parse_device_info_response at h
    dsimp only at h
    by_cases hp : pyStartsWith response (RESPONSE_SUCCESS ++ ",") = false
    · rw [if_pos hp] at h; cases h
    rw [if_neg hp] at h
    by_cases hl : (pySplit (String.mk (response.data.drop 4))).length < 1
    · rw [if_pos hl] at h; cases h
    rw [if_neg hl] at h
    by_cases h2 : 2 ≤ (pySplit (String.mk (response.data.drop 4))).length
    · rw [if_pos h2] at h; cases h; rfl
    · rw [if_neg h2] at h; cases h; rfl
  · intro hp hlen
    unfold parse_device_info_response
    dsimp only
    rw [if_neg (by simp [hp]), if_neg (not_lt.mpr (pySplit_length_pos _)),
      if_neg (not_le.mpr hlen)]

theorem claim_C6_witness :
    parse_device_info_response "$A0,NP0501DU" =
      .ok (DeviceInfo.mk "NP0501DU" none none none none "$A0,NP0501DU") := by
  have h := (claim_C6_amended "$A0,NP0501DU").2.2.1 (by decide) (by decide)
  rw [h]
  decide

/-- C7: `turn_on_all` and `turn_off_all` invoke the per-outlet operation
for every outlet 1..5 in order and never raise: the result map always has
exactly the keys 1..5, a per-outlet error is recorded as `false`, and on a
device where only outlet 3's command fails at the transport the result is
`{1: true, 2: true, 3: false, 4: true, 5: true}`. -/
theorem claim_C7_batch (host username : String) (oracle : Int → HttpResult) :
    (turn_on_all host username oracle).map Prod.fst = OUTLET_RANGE_LIST
    ∧ (turn_off_all host username oracle).map Prod.fst = OUTLET_RANGE_LIST
    ∧ (∀ o e, o ∈ OUTLET_RANGE_LIST →
        turn_on host username o (oracle o) = .error e →
        (turn_on_all host username oracle).lookup o = some false)
    ∧ (∀ o e, o ∈ OUTLET_RANGE_LIST →
        turn_off host username o (oracle o) = .error e →
        (turn_off_all host username oracle).lookup o = some false)
    ∧ turn_on_all "h" "u" failAt3Oracle
        = [(1, true), (2, true), (3, false), (4, true), (5, true)] := by
  refine ⟨outlet_map_keys _, outlet_map_keys _, ?_, ?_, by decide⟩
  · intro o e ho he
    fin_cases ho <;> simp [turn_on_all, OUTLET_RANGE_LIST, List.lookup, he]
  · intro o e ho he
    fin_cases ho <;> simp [turn_off_all, OUTLET_RANGE_LIST, List.lookup, he]

theorem claim_C7_witness :
    (turn_on_all "h" "u" failAt3Oracle).lookup 3 = some false :=
  (claim_C7_batch "h" "u" failAt3Oracle).2.2.1 3
    (.connectionError "h" "Connection failed: unreachable") (by decide) (by decide)

/-- C8: every public operation taking an outlet number (`get_outlet_state`,
`set_outlet`, `turn_on`, `turn_off`, `toggle_outlet`) raises
InvalidOutletError for any outlet number outside 1..5, for EVERY possible
transport outcome `r` - i.e. without the result depending on any network
interaction. -/
theorem claim_C8_local_validation (host username : String) (o : Int)
    (state : Bool) (r : HttpResult) (h : inOutletRange o = false) :
    get_outlet_state host username o r = .error (.invalidOutletError o NUM_OUTLETS)
    ∧ set_outlet host username o state r = .error (.invalidOutletError o NUM_OUTLETS)
    ∧ turn_on host username o r = .error (.invalidOutletError o NUM_OUTLETS)
    ∧ turn_off host username o r = .error (.invalidOutletError o NUM_OUTLETS)
    ∧ toggle_outlet host username o r
        = .error (.invalidOutletError o NUM_OUTLETS) := by
  refine ⟨?_, ?_, ?_, ?_, ?_⟩ <;>
    simp [get_outlet_state, set_outlet, turn_on, turn_off, toggle_outlet, h]

theorem claim_C8_witness :
    get_outlet_state "h" "u" 0 (.response 200 "OK" "$A0,10101,2.50,25")
        = .error (.invalidOutletError 0 NUM_OUTLETS)
    ∧ get_outlet_state "h" "u" 6 (.response 200 "OK" "$A0,10101,2.50,25")
        = .error (.invalidOutletError 6 NUM_OUTLETS) :=
  ⟨(claim_C8_local_validation "h" "u" 0 true
      (.response 200 "OK" "$A0,10101,2.50,25") (by decide)).1,
   (claim_C8_local_validation "h" "u" 6 true
      (.response 200 "OK" "$A0,10101,2.50,25") (by decide)).1⟩

end NetCommander
